import Mathlib

/-!
Shallow embedding of the attendance-system-api core: the business logic of
src/services/attendanceService.js together with the MySQL schema
(UNIQUE(employee_id, date) on the attendance table).

Machine model:
* the MySQL attendance table is a list of rows; dbUpsertCheckIn realises the
  INSERT .. ON DUPLICATE KEY UPDATE statement against it;
* the MySQL employees table is a list of employee rows;
* the redis keys checkin:{userId}:{date} form an association list;
* the redis set employees_in_office is a duplicate-free list;
* the redis report:{start}:{end} keys carry their payload together with an
  absolute expiry instant (setEx with a one-hour ttl); redis expiry is
  modelled by ignoring an entry once the clock has reached that instant;
* the bull email queue is the list of jobs added so far.

Times within one day are milliseconds since local midnight (the JS Date
arithmetic in the service only ever compares instants of the same day);
dates are day indices; the wall clock used for report-cache expiry is in
seconds.
-/

namespace Attendance

abbrev EmployeeId := Nat

abbrev Date := Nat

abbrev Time := Nat

/-- A row of the employees table (the columns the service selects). -/
structure Employee where
  id : EmployeeId
  name : String
  department : String
deriving DecidableEq, Repr

/-- A row of the attendance table; UNIQUE(employee_id, date) in the schema. -/
structure AttendanceRow where
  employee_id : EmployeeId
  date : Date
  check_in_time : Option Time
  check_out_time : Option Time
deriving DecidableEq, Repr

/-- Payload of an emailQueue.add("late-notification", ...) call. -/
structure NotificationJob where
  employeeId : EmployeeId
  employeeName : String
  checkInTime : Time
  minutesLate : Int
deriving DecidableEq, Repr

/-- One row of the report join (attendance columns are NULL when the left
join finds no row in range). -/
structure ReportRow where
  id : EmployeeId
  name : String
  department : String
  date : Option Date
  check_in_time : Option Time
  check_out_time : Option Time
deriving DecidableEq, Repr

/-- The payload served by getAttendanceReport. -/
structure Report where
  startDate : Date
  endDate : Date
  records : List ReportRow
deriving DecidableEq, Repr

/-- Outcome of a service call: the JSON result, or the message of the error
the service throws. -/
inductive CallResult (α : Type) where
  | ok (value : α)
  | err (message : String)
deriving DecidableEq, Repr

/-- The shared mutable world: the two MySQL tables, the redis keys and set,
and the bull queue. -/
structure SysState where
  attendance : List AttendanceRow
  employees : List Employee
  checkinCache : List ((EmployeeId × Date) × Time)
  presence : List EmployeeId
  reportCache : List ((Date × Date) × (Report × Nat))
  emailQueue : List NotificationJob
deriving DecidableEq, Repr

/-- The system with empty tables, caches, set and queue. -/
def initState : SysState :=
  { attendance := [], employees := [], checkinCache := [], presence := [],
    reportCache := [], emailQueue := [] }

/-- redis SADD: add an element to the set if absent. -/
def sAdd (l : List EmployeeId) (x : EmployeeId) : List EmployeeId :=
  if x ∈ l then l else l ++ [x]

/-- redis SREM: remove an element from the set. -/
def sRem (l : List EmployeeId) (x : EmployeeId) : List EmployeeId :=
  l.filter (fun y => y != x)

/-- redis SETEX on an association list: the new binding shadows any older
binding of the same key. -/
def setKey {κ α : Type} [BEq κ] (c : List (κ × α)) (k : κ) (v : α) :
    List (κ × α) :=
  (k, v) :: c.filter (fun p => p.1 != k)

/-- WORK_START_TIME at its environment default "09:00", parsed to
(hour, minute) as in the service. -/
def workStartTime : Nat × Nat := (9, 0)

/-- The instant startTime built by setHours(startHour, startMinute, 0, 0)
on the check-in day, in milliseconds since that day's midnight. -/
def startOfDayMs : Time := (workStartTime.1 * 60 + workStartTime.2) * 60000

/-- The function isLate: checkIn > startTime, a strict comparison of
instants on the same day. -/
def isLate (checkInTime : Time) : Bool :=
  decide (startOfDayMs < checkInTime)

/-- The function calculateMinutesLate:
Math.floor((checkInTime - startTime) / (1000 * 60)). JS Math.floor rounds a
negative quotient towards minus infinity, which is Int.fdiv. No clamping is
applied. -/
def calculateMinutesLate (checkInTime : Time) : Int :=
  Int.fdiv ((checkInTime : Int) - (startOfDayMs : Int)) (1000 * 60)

/-- The function hasCheckedInToday: GET checkin:{userId}:{date} and test
truthiness (the stored value is an ISO timestamp string, never empty). -/
def hasCheckedInToday (s : SysState) (userId : EmployeeId) (date : Date) :
    Bool :=
  (s.checkinCache.lookup (userId, date)).isSome

/-- The statement INSERT INTO attendance (employee_id, date, check_in_time)
VALUES (?, ?, ?) ON DUPLICATE KEY UPDATE check_in_time =
VALUES(check_in_time): with the schema's UNIQUE(employee_id, date) key, a
clash updates check_in_time of the existing row in place; otherwise a fresh
row is inserted. The statement never fails on a duplicate. -/
def dbUpsertCheckIn (att : List AttendanceRow) (userId : EmployeeId)
    (date : Date) (checkInTime : Time) : List AttendanceRow :=
  if att.any (fun r => r.employee_id == userId && r.date == date) then
    att.map (fun r =>
      if r.employee_id == userId && r.date == date then
        { r with check_in_time := some checkInTime }
      else r)
  else
    att ++ [{ employee_id := userId, date := date,
              check_in_time := some checkInTime, check_out_time := none }]

/-- The function recordCheckIn: upsert the durable row, SETEX the checkin:
key, SADD the presence set. No conflict is ever signalled. -/
def recordCheckIn (s : SysState) (userId : EmployeeId) (date : Date)
    (checkInTime : Time) : SysState :=
  { s with
    attendance := dbUpsertCheckIn s.attendance userId date checkInTime
    checkinCache := setKey s.checkinCache (userId, date) checkInTime
    presence := sAdd s.presence userId }

/-- The function recordCheckOut: UPDATE attendance SET check_out_time = ?
WHERE employee_id = ? AND date = ?. When no row matches, affectedRows is 0
and the service throws before touching the presence set; otherwise it SREMs
the employee from employees_in_office. -/
def recordCheckOut (s : SysState) (userId : EmployeeId) (date : Date)
    (checkOutTime : Time) : SysState × CallResult Unit :=
  if (s.attendance.filter
      (fun r => r.employee_id == userId && r.date == date)).isEmpty then
    (s, .err "No check-in record found for today")
  else
    ({ s with
        attendance := s.attendance.map (fun r =>
          if r.employee_id == userId && r.date == date then
            { r with check_out_time := some checkOutTime }
          else r)
        presence := sRem s.presence userId },
      .ok ())

/-- The function queueLateNotification: add the job to the bull queue. -/
def queueLateNotification (s : SysState) (employeeId : EmployeeId)
    (employeeName : String) (checkInTime : Time) (minutesLate : Int) :
    SysState :=
  { s with emailQueue := s.emailQueue ++
      [{ employeeId := employeeId, employeeName := employeeName,
         checkInTime := checkInTime, minutesLate := minutesLate }] }

/-- The JSON body returned by a successful checkIn. -/
structure CheckInResponse where
  message : String
  checkInTime : Time
  isLate : Bool
deriving DecidableEq, Repr

/-- The write phase of checkIn, everything after the duplicate-guard read
returned falsy: durable upsert, cache and presence writes, lateness
evaluation, conditional enqueue. queueAvailable models whether the bull
queue accepts the add; the service does not catch a rejection, so the
rejection propagates, but the writes that already happened stand — hence
the final state is returned alongside the outcome. -/
def checkInWrites (queueAvailable : Bool) (s : SysState)
    (userId : EmployeeId) (userName : String) (today : Date)
    (checkInTime : Time) : SysState × CallResult CheckInResponse :=
  let s1 := recordCheckIn s userId today checkInTime
  let late := isLate checkInTime
  if late then
    if queueAvailable then
      (queueLateNotification s1 userId userName checkInTime
        (calculateMinutesLate checkInTime),
       .ok { message := "Checked in successfully",
             checkInTime := checkInTime, isLate := late })
    else
      (s1, .err "QueueUnavailable")
  else
    (s1, .ok { message := "Checked in successfully",
               checkInTime := checkInTime, isLate := late })

/-- The function checkIn: read-then-write duplicate guard followed by the
write phase. -/
def checkIn (queueAvailable : Bool) (s : SysState) (userId : EmployeeId)
    (userName : String) (today : Date) (checkInTime : Time) :
    SysState × CallResult CheckInResponse :=
  if hasCheckedInToday s userId today then
    (s, .err "Already checked in today")
  else
    checkInWrites queueAvailable s userId userName today checkInTime

/-- The JSON body returned by a successful checkOut. -/
structure CheckOutResponse where
  message : String
  checkOutTime : Time
deriving DecidableEq, Repr

/-- The function checkOut: delegate to recordCheckOut; a throw propagates
unchanged. -/
def checkOut (s : SysState) (userId : EmployeeId) (today : Date)
    (checkOutTime : Time) : SysState × CallResult CheckOutResponse :=
  match recordCheckOut s userId today checkOutTime with
  | (s1, .err e) => (s1, .err e)
  | (s1, .ok _) => (s1, .ok { message := "Checked out successfully",
                              checkOutTime := checkOutTime })

/-- The function getCurrentEmployeesInOffice: SMEMBERS, early return on the
empty set, otherwise SELECT id, name, department FROM employees WHERE id IN
(...). The boolean of the pair records whether the SQL query was issued. -/
def getCurrentEmployeesInOffice (s : SysState) : Bool × List Employee :=
  let employeeIds := s.presence
  if employeeIds.isEmpty then
    (false, [])
  else
    (true, s.employees.filter (fun e => employeeIds.contains e.id))

/-- Insertion of an element into a sorted list, the auxiliary step of
sortBy. -/
def insertRow {α : Type} (le : α → α → Bool) (a : α) : List α → List α
  | [] => [a]
  | b :: l => if le a b then a :: b :: l else b :: insertRow le a l

/-- A stable sort realising the ORDER BY clause of the report query. -/
def sortBy {α : Type} (le : α → α → Bool) : List α → List α
  | [] => []
  | a :: l => insertRow le a (sortBy le l)

/-- Row order of the report query, ORDER BY e.name, a.date ascending; a
NULL date sorts first as in MySQL. -/
def reportRowLe (r1 r2 : ReportRow) : Bool :=
  decide (r1.name < r2.name) ||
    (r1.name == r2.name &&
      match r1.date, r2.date with
      | none, _ => true
      | some _, none => false
      | some d1, some d2 => decide (d1 ≤ d2))

/-- The report SQL: employees LEFT JOIN attendance ON e.id = a.employee_id
AND DATE(a.date) BETWEEN DATE(?) AND DATE(?), ordered by employee name then
date. An employee with no attendance row in range appears once with NULL
attendance columns. -/
def reportQuery (s : SysState) (startDate endDate : Date) : List ReportRow :=
  sortBy reportRowLe (s.employees.flatMap (fun e =>
    let matching := s.attendance.filter (fun a =>
      a.employee_id == e.id && decide (startDate ≤ a.date) &&
        decide (a.date ≤ endDate))
    if matching.isEmpty then
      [{ id := e.id, name := e.name, department := e.department,
         date := none, check_in_time := none, check_out_time := none }]
    else
      matching.map (fun a =>
        { id := e.id, name := e.name, department := e.department,
          date := some a.date, check_in_time := a.check_in_time,
          check_out_time := a.check_out_time })))

/-- The ttl passed to setEx for report: keys, in seconds. -/
def TTL_REPORT : Nat := 3600

/-- Cache-miss path of getAttendanceReport: run the join, SETEX the payload
for an hour, return it. -/
def freshReport (s : SysState) (now : Nat) (startDate endDate : Date) :
    SysState × Report :=
  let report : Report :=
    { startDate := startDate, endDate := endDate,
      records := reportQuery s startDate endDate }
  ({ s with reportCache :=
      setKey s.reportCache (startDate, endDate) (report, now + TTL_REPORT) },
   report)

/-- The function getAttendanceReport: read the report:{start}:{end} key and
return a still-live hit as-is (no validation of the range anywhere on the
path); on a miss or an expired entry, recompute and cache. -/
def getAttendanceReport (s : SysState) (now : Nat)
    (startDate endDate : Date) : SysState × Report :=
  match s.reportCache.lookup (startDate, endDate) with
  | some (cachedReport, expiry) =>
    if now < expiry then (s, cachedReport)
    else freshReport s now startDate endDate
  | none => freshReport s now startDate endDate

/-- Two concurrent checkIn calls A and B with identical arguments under the
schedule: A's duplicate-guard GET, then B's duplicate-guard GET, then all
of A's writes, then all of B's writes. Every GET and every write is a
single awaited redis or MySQL command in the service, so this is a possible
interleaving of the real code on two engine instances. -/
def checkInPairRace (s : SysState) (userId : EmployeeId)
    (nameA nameB : String) (today : Date) (tA tB : Time) :
    SysState × CallResult CheckInResponse × CallResult CheckInResponse :=
  let rA := hasCheckedInToday s userId today
  let rB := hasCheckedInToday s userId today
  let stepA :=
    if rA then (s, CallResult.err "Already checked in today")
    else checkInWrites true s userId nameA today tA
  let stepB :=
    if rB then (stepA.1, CallResult.err "Already checked in today")
    else checkInWrites true stepA.1 userId nameB today tB
  (stepB.1, stepA.2, stepB.2)

/-! Basic lemmas about the sort used for ORDER BY. -/

theorem mem_insertRow {α : Type} (le : α → α → Bool) (a x : α) (l : List α) :
    x ∈ insertRow le a l ↔ x = a ∨ x ∈ l := by
  induction l with
  | nil => simp [insertRow]
  | cons b l ih =>
    unfold insertRow
    split
    · simp [List.mem_cons]
    · simp [List.mem_cons, ih]
      tauto

theorem length_insertRow {α : Type} (le : α → α → Bool) (a : α) (l : List α) :
    (insertRow le a l).length = l.length + 1 := by
  induction l with
  | nil => simp [insertRow]
  | cons b l ih =>
    unfold insertRow
    split
    · simp
    · simp [ih]

theorem mem_sortBy {α : Type} (le : α → α → Bool) (x : α) (l : List α) :
    x ∈ sortBy le l ↔ x ∈ l := by
  induction l with
  | nil => simp [sortBy]
  | cons a l ih => simp [sortBy, mem_insertRow, ih]

theorem length_sortBy {α : Type} (le : α → α → Bool) (l : List α) :
    (sortBy le l).length = l.length := by
  induction l with
  | nil => simp [sortBy]
  | cons a l ih => simp [sortBy, length_insertRow, ih]

/-! Lateness policy lemmas. -/

theorem isLate_iff (t : Time) : isLate t = true ↔ startOfDayMs < t := by
  simp [isLate]

theorem minutesLate_nonneg (t : Time) (h : isLate t = true) :
    0 ≤ calculateMinutesLate t := by
  have ht : startOfDayMs < t := (isLate_iff t).mp h
  unfold calculateMinutesLate
  apply Int.fdiv_nonneg
  · exact Int.sub_nonneg.mpr (by exact_mod_cast ht.le)
  · norm_num

/-- C4: with start-of-day configured at its default 09:00, isLate holds iff
the time-of-day is strictly after 09:00; whenever a check-in is late, the
minutes-late value the service computes equals
floor((checkInTime - startOfDay)/60 s) clamped to be nonnegative (the clamp
is vacuous under the isLate guard); 09:00:00.000 exactly is not late,
09:00:01 is late with 0 minutes, 09:15:00 is late with 15 minutes. -/
theorem lateness_policy_c4 :
    (∀ t : Time, isLate t = true ↔ startOfDayMs < t) ∧
    (∀ t : Time, isLate t = true →
      calculateMinutesLate t
          = max 0 (Int.fdiv ((t : Int) - (startOfDayMs : Int)) (1000 * 60)) ∧
        0 ≤ calculateMinutesLate t) ∧
    isLate 32400000 = false ∧
    (isLate 32401000 = true ∧ calculateMinutesLate 32401000 = 0) ∧
    (isLate 33300000 = true ∧ calculateMinutesLate 33300000 = 15) := by
  refine ⟨isLate_iff, fun t h => ?_, by decide, ⟨by decide, by decide⟩,
    ⟨by decide, by decide⟩⟩
  have h0 : 0 ≤ calculateMinutesLate t := minutesLate_nonneg t h
  exact ⟨(max_eq_right h0).symm, h0⟩

theorem lateness_policy_c4_witness :
    isLate 32401000 = true ∧
    calculateMinutesLate 32401000
        = max 0 (Int.fdiv (((32401000 : Time) : Int) - (startOfDayMs : Int))
            (1000 * 60)) ∧
      0 ≤ calculateMinutesLate 32401000 :=
  ⟨by decide, lateness_policy_c4.2.1 32401000 (by decide)⟩

/-- C5: a checkOut when the durable store holds no attendance row for
(employeeId, today) throws "No check-in record found for today" and
produces no state change at all: the returned state is the input state, so
the attendance table, the presence set and every cache are untouched. -/
theorem checkout_without_checkin_c5 (s : SysState) (userId : EmployeeId)
    (today : Date) (t : Time)
    (h : ∀ r ∈ s.attendance, ¬(r.employee_id = userId ∧ r.date = today)) :
    checkOut s userId today t
      = (s, CallResult.err "No check-in record found for today") := by
  have hfilter : s.attendance.filter
      (fun r => r.employee_id == userId && r.date == today) = [] := by
    rw [List.filter_eq_nil_iff]
    intro r hr
    simpa using h r hr
  simp [checkOut, recordCheckOut, hfilter]

theorem checkout_without_checkin_c5_witness :
    checkOut initState 1 0 61200000
      = (initState, CallResult.err "No check-in record found for today") :=
  checkout_without_checkin_c5 initState 1 0 61200000
    (by intro r hr; simp [initState] at hr)

/-- C9: a successful checkIn returns the success body, and it enqueues a
notification job precisely when the check-in is late: in the late case the
queue grows by exactly one job carrying calculateMinutesLate of the
check-in time, which is nonnegative there; in the non-late case the queue
is untouched, so calculateMinutesLate (negative on such inputs) is only
ever used under the isLate guard. -/
theorem late_notification_guard_c9 (s : SysState) (userId : EmployeeId)
    (userName : String) (today : Date) (t : Time)
    (h : hasCheckedInToday s userId today = false) :
    ((checkIn true s userId userName today t).2
        = CallResult.ok { message := "Checked in successfully",
                          checkInTime := t, isLate := isLate t }) ∧
    (isLate t = true →
      (checkIn true s userId userName today t).1.emailQueue
          = s.emailQueue ++
            [{ employeeId := userId, employeeName := userName,
               checkInTime := t, minutesLate := calculateMinutesLate t }] ∧
        0 ≤ calculateMinutesLate t) ∧
    (isLate t = false →
      (checkIn true s userId userName today t).1.emailQueue
        = s.emailQueue) := by
  cases hl : isLate t with
  | false =>
    refine ⟨?_, fun htrue => by simp [hl] at htrue, fun hfalse => ?_⟩
    · simp [checkIn, h, checkInWrites, hl]
    · simp [checkIn, h, checkInWrites, hl, recordCheckIn]
  | true =>
    refine ⟨?_, fun htrue => ⟨?_, minutesLate_nonneg t hl⟩,
      fun hfalse => by simp [hl] at hfalse⟩
    · simp [checkIn, h, checkInWrites, hl]
    · simp [checkIn, h, checkInWrites, hl, recordCheckIn,
        queueLateNotification]

theorem late_notification_guard_c9_witness :
    ((checkIn true initState 1 "Alice" 5 33300000).2
        = CallResult.ok { message := "Checked in successfully",
                          checkInTime := 33300000,
                          isLate := isLate 33300000 }) ∧
    ((checkIn true initState 1 "Alice" 5 33300000).1.emailQueue
        = initState.emailQueue ++
          [{ employeeId := 1, employeeName := "Alice",
             checkInTime := 33300000,
             minutesLate := calculateMinutesLate 33300000 }] ∧
      0 ≤ calculateMinutesLate 33300000) := by
  have h := late_notification_guard_c9 initState 1 "Alice" 5 33300000
    (by decide)
  exact ⟨h.1, h.2.1 (by decide)⟩

/-- C10: with an empty presence set, getCurrentEmployeesInOffice returns
the empty list without issuing the SQL query (the boolean of the result
records whether the query ran); with a non-empty set the query runs, every
returned employee is a row of the employees table whose id is in the set,
and a presence member with no employees row is silently absent from the
result. -/
theorem current_presence_c10 (s : SysState) :
    (s.presence = [] → getCurrentEmployeesInOffice s = (false, [])) ∧
    (s.presence ≠ [] → (getCurrentEmployeesInOffice s).1 = true) ∧
    (∀ e ∈ (getCurrentEmployeesInOffice s).2,
      e ∈ s.employees ∧ e.id ∈ s.presence) ∧
    (∀ p ∈ s.presence, (∀ e ∈ s.employees, e.id ≠ p) →
      ∀ e ∈ (getCurrentEmployeesInOffice s).2, e.id ≠ p) := by
  have hmem : ∀ e ∈ (getCurrentEmployeesInOffice s).2,
      e ∈ s.employees ∧ e.id ∈ s.presence := by
    intro e he
    cases hsp : s.presence.isEmpty with
    | true => simp [getCurrentEmployeesInOffice, hsp] at he
    | false =>
      simp [getCurrentEmployeesInOffice, hsp, List.mem_filter] at he
      exact ⟨he.1, he.2⟩
  refine ⟨fun hp => by simp [getCurrentEmployeesInOffice, hp],
    fun hp => ?_, hmem, fun p hp hno e he => ?_⟩
  · have hsp : s.presence.isEmpty = false := by
      cases hsp : s.presence.isEmpty with
      | true => exact absurd (List.isEmpty_iff.mp hsp) hp
      | false => rfl
    simp [getCurrentEmployeesInOffice, hsp]
  · exact hno e (hmem e he).1

/-- Sample state for exercising getCurrentEmployeesInOffice: employee 2 is
in the presence set but has no row in the employees table. -/
def officeState : SysState :=
  { initState with
    presence := [1, 2]
    employees := [{ id := 1, name := "Alice", department := "Engineering" }] }

theorem current_presence_c10_witness :
    (getCurrentEmployeesInOffice officeState).1 = true ∧
    ∀ e ∈ (getCurrentEmployeesInOffice officeState).2, e.id ≠ 2 :=
  ⟨(current_presence_c10 officeState).2.1 (by decide),
   (current_presence_c10 officeState).2.2.2 2 (by decide) (by decide)⟩


/-- C1: two concurrent checkIn calls with identical arguments, interleaved
as read-read-write-write (both duplicate-guard GETs before either write),
BOTH return "Checked in successfully" — not exactly one — because the
duplicate check is a separate read before the write and the durable insert
is an ON DUPLICATE KEY UPDATE upsert that cannot fail on the second write.
The half of the claim that does hold is visible in the final state: the
UNIQUE(employee_id, date) key keeps the store at one row for the pair,
holding the second writer's check_in_time. -/
theorem concurrent_checkin_race_c1 :
    ((checkInPairRace initState 1 "Alice" "Alice" 5 28800000 29400000).2.1
        = CallResult.ok { message := "Checked in successfully",
                          checkInTime := 28800000, isLate := false }) ∧
    ((checkInPairRace initState 1 "Alice" "Alice" 5 28800000 29400000).2.2
        = CallResult.ok { message := "Checked in successfully",
                          checkInTime := 29400000, isLate := false }) ∧
    ((checkInPairRace initState 1 "Alice" "Alice" 5 28800000 29400000).1.attendance
        = [{ employee_id := 1, date := 5, check_in_time := some 29400000,
             check_out_time := none }]) := by
  refine ⟨by decide, by decide, by decide⟩

/-- C2: when the durable store already holds an attendance row for the key
with a check-in set, recordCheckIn does not signal any conflict — it is a
total function whose INSERT .. ON DUPLICATE KEY UPDATE overwrites the
stored check_in_time with the new value, so the previously stored 09:00
check-in becomes 09:30. -/
theorem upsert_overwrites_checkin_c2 :
    (recordCheckIn
        { initState with
          attendance := [{ employee_id := 1, date := 5,
                           check_in_time := some 32400000,
                           check_out_time := none }] }
        1 5 34200000).attendance
      = [{ employee_id := 1, date := 5, check_in_time := some 34200000,
           check_out_time := none }] := by
  decide

/-- C3: a late check-in (09:15) whose notification enqueue is rejected by
an unavailable queue makes the whole checkIn call fail — the service does
not catch the rejection — even though the durable attendance row, the
checkin: cache key and the presence-set entry all already stand in the
final state. -/
theorem queue_failure_fails_checkin_c3 :
    ((checkIn false initState 1 "Alice" 5 33300000).2
        = CallResult.err "QueueUnavailable") ∧
    ((checkIn false initState 1 "Alice" 5 33300000).1.attendance
        = [{ employee_id := 1, date := 5, check_in_time := some 33300000,
             check_out_time := none }]) ∧
    ((checkIn false initState 1 "Alice" 5 33300000).1.presence = [1]) ∧
    hasCheckedInToday (checkIn false initState 1 "Alice" 5 33300000).1 1 5
      = true := by
  refine ⟨by decide, by decide, by decide, by decide⟩

/-- Sample state for the repeated-checkOut scenario: exactly the state
reached from the empty system by a successful checkIn at 09:00 followed by
a successful checkOut at 17:00 on day 5. -/
def afterCheckOutState : SysState :=
  (checkOut (checkIn true initState 1 "Alice" 5 32400000).1 1 5 61200000).1

/-- C6 counterexample: from the state reached by a successful checkIn and
checkOut for (employee 1, day 5), a second checkOut at 18:00 the same day
is not rejected: it succeeds and overwrites the stored 17:00
check_out_time with 18:00, so there is a transition out of CheckedOut. -/
theorem checkout_twice_c6_counterexample :
    ((checkOut afterCheckOutState 1 5 64800000).2
        = CallResult.ok { message := "Checked out successfully",
                          checkOutTime := 64800000 }) ∧
    (afterCheckOutState.attendance
        = [{ employee_id := 1, date := 5, check_in_time := some 32400000,
             check_out_time := some 61200000 }]) ∧
    ((checkOut afterCheckOutState 1 5 64800000).1.attendance
        = [{ employee_id := 1, date := 5, check_in_time := some 32400000,
             check_out_time := some 64800000 }]) := by
  refine ⟨by decide, by decide, by decide⟩

/-- C6 amended: once any attendance row exists for (employeeId, today) — in
particular after a successful CheckOut — a further checkOut for the same
day succeeds and overwrites the stored check_out_time of every row of that
key with the new time. -/
theorem checkout_overwrites_c6_amended (s : SysState) (userId : EmployeeId)
    (today : Date) (t : Time)
    (h : ∃ r ∈ s.attendance, r.employee_id = userId ∧ r.date = today) :
    ((checkOut s userId today t).2
        = CallResult.ok { message := "Checked out successfully",
                          checkOutTime := t }) ∧
    ∀ r ∈ (checkOut s userId today t).1.attendance,
      r.employee_id = userId → r.date = today → r.check_out_time = some t := by
  obtain ⟨r0, hr0, hid, hdate⟩ := h
  have hfilter : (s.attendance.filter
      (fun r => r.employee_id == userId && r.date == today)).isEmpty
        = false := by
    rw [List.isEmpty_eq_false]
    intro hnil
    have : r0 ∈ (s.attendance.filter
        (fun r => r.employee_id == userId && r.date == today)) :=
      List.mem_filter.mpr ⟨hr0, by simp [hid, hdate]⟩
    rw [hnil] at this
    exact List.not_mem_nil r0 this
  have hrec : recordCheckOut s userId today t
      = ({ s with
            attendance := s.attendance.map (fun r =>
              if r.employee_id == userId && r.date == today then
                { r with check_out_time := some t }
              else r)
            presence := sRem s.presence userId },
          CallResult.ok ()) := by
    simp [recordCheckOut, hfilter]
  refine ⟨by simp [checkOut, hrec], ?_⟩
  intro r hr hrid hrdate
  have hatt : (checkOut s userId today t).1.attendance
      = s.attendance.map (fun r =>
          if r.employee_id == userId && r.date == today then
            { r with check_out_time := some t }
          else r) := by
    simp [checkOut, hrec]
  rw [hatt, List.mem_map] at hr
  obtain ⟨r1, hr1, hmap⟩ := hr
  by_cases hp : (r1.employee_id == userId && r1.date == today) = true
  · simp only [hp, if_true] at hmap
    rw [← hmap]
  · rw [if_neg hp] at hmap
    subst hmap
    exact absurd (by simp [hrid, hrdate]) hp

theorem checkout_overwrites_c6_amended_witness :
    ((checkOut afterCheckOutState 1 5 64800000).2
        = CallResult.ok { message := "Checked out successfully",
                          checkOutTime := 64800000 }) ∧
    ∀ r ∈ (checkOut afterCheckOutState 1 5 64800000).1.attendance,
      r.employee_id = 1 → r.date = 5 → r.check_out_time = some 64800000 :=
  checkout_overwrites_c6_amended afterCheckOutState 1 5 64800000
    ⟨{ employee_id := 1, date := 5, check_in_time := some 32400000,
       check_out_time := some 61200000 }, by decide, rfl, rfl⟩


/-- Sample state with one employee and nothing else, for exercising the
report path. -/
def reportState : SysState :=
  { initState with
    employees := [{ id := 1, name := "Alice", department := "Engineering" }] }

/-- C7 counterexample: a report call with endDate 5 before startDate 10
does not fail — there is no range validation anywhere on the path — and
returns a normal report payload: the BETWEEN clause matches nothing, so the
left join lists each employee once with NULL attendance columns. -/
theorem report_inverted_range_c7_counterexample :
    (getAttendanceReport reportState 0 10 5).2
      = { startDate := 10, endDate := 5,
          records := [{ id := 1, name := "Alice",
                        department := "Engineering", date := none,
                        check_in_time := none, check_out_time := none }] } := by
  decide

/-- An auxiliary lemma: a flatMap all of whose fibres are singletons is a
map. -/
theorem flatMap_eq_map_of_forall {α β : Type} (f : α → List β) (g : α → β)
    (l : List α) (h : ∀ a, f a = [g a]) : l.flatMap f = l.map g := by
  induction l with
  | nil => simp
  | cons a l ih => simp [List.flatMap_cons, h, ih]

/-- C7 amended: a Report call with endDate < startDate (and no live cache
entry for the pair) does not fail with InvalidRange; it returns a report
for that very range whose records list every employee exactly once, all
with NULL date, check-in and check-out columns, because the BETWEEN clause
is unsatisfiable. -/
theorem report_inverted_range_c7_amended (s : SysState) (now : Nat)
    (d1 d2 : Date) (hrange : d2 < d1)
    (hcache : s.reportCache.lookup (d1, d2) = none) :
    ((getAttendanceReport s now d1 d2).2.startDate = d1) ∧
    ((getAttendanceReport s now d1 d2).2.endDate = d2) ∧
    ((getAttendanceReport s now d1 d2).2.records.length
        = s.employees.length) ∧
    ∀ row ∈ (getAttendanceReport s now d1 d2).2.records,
      row.date = none ∧ row.check_in_time = none ∧
        row.check_out_time = none := by
  have hrep : (getAttendanceReport s now d1 d2).2
      = { startDate := d1, endDate := d2, records := reportQuery s d1 d2 } := by
    simp [getAttendanceReport, hcache, freshReport]
  have hq : reportQuery s d1 d2
      = sortBy reportRowLe (s.employees.map (fun e =>
          { id := e.id, name := e.name, department := e.department,
            date := none, check_in_time := none,
            check_out_time := none })) := by
    unfold reportQuery
    congr 1
    apply flatMap_eq_map_of_forall
    intro e
    have hfil : s.attendance.filter (fun a =>
        a.employee_id == e.id && decide (d1 ≤ a.date) &&
          decide (a.date ≤ d2)) = [] := by
      rw [List.filter_eq_nil_iff]
      intro a ha hcontra
      simp only [Bool.and_eq_true, decide_eq_true_eq, beq_iff_eq]
        at hcontra
      obtain ⟨⟨-, h1⟩, h2⟩ := hcontra
      exact absurd hrange (not_lt.mpr (h1.trans h2))
    simp [hfil]
  refine ⟨by rw [hrep], by rw [hrep], ?_, ?_⟩
  · rw [hrep]
    dsimp only
    rw [hq, length_sortBy, List.length_map]
  · intro row hrow
    rw [hrep] at hrow
    dsimp only at hrow
    rw [hq, mem_sortBy, List.mem_map] at hrow
    obtain ⟨e, he, heq⟩ := hrow
    rw [← heq]
    exact ⟨rfl, rfl, rfl⟩

theorem report_inverted_range_c7_amended_witness :
    ((getAttendanceReport reportState 0 10 5).2.startDate = 10) ∧
    ((getAttendanceReport reportState 0 10 5).2.endDate = 5) ∧
    ((getAttendanceReport reportState 0 10 5).2.records.length
        = reportState.employees.length) ∧
    ∀ row ∈ (getAttendanceReport reportState 0 10 5).2.records,
      row.date = none ∧ row.check_in_time = none ∧
        row.check_out_time = none :=
  report_inverted_range_c7_amended reportState 0 10 5 (by decide) (by decide)


/-- An auxiliary lemma: getAttendanceReport writes only the report cache;
the tables, the checkin: keys and everything else are untouched. -/
theorem getAttendanceReport_keeps (s : SysState) (now : Nat)
    (d1 d2 : Date) :
    (getAttendanceReport s now d1 d2).1.attendance = s.attendance ∧
    (getAttendanceReport s now d1 d2).1.employees = s.employees ∧
    (getAttendanceReport s now d1 d2).1.checkinCache = s.checkinCache := by
  unfold getAttendanceReport
  cases hl : s.reportCache.lookup (d1, d2) with
  | none => simp [freshReport]
  | some v =>
    obtain ⟨rep, exp⟩ := v
    by_cases hn : now < exp
    · simp [hn]
    · simp [hn, freshReport]

/-- An auxiliary lemma: checkIn never touches the report cache or the
employees table. -/
theorem checkIn_keeps (q : Bool) (s : SysState) (userId : EmployeeId)
    (userName : String) (today : Date) (t : Time) :
    (checkIn q s userId userName today t).1.reportCache = s.reportCache ∧
    (checkIn q s userId userName today t).1.employees = s.employees := by
  cases hdup : hasCheckedInToday s userId today with
  | true => simp [checkIn, hdup]
  | false =>
    cases hl : isLate t with
    | true =>
      cases q with
      | true =>
        simp [checkIn, checkInWrites, hdup, hl, recordCheckIn,
          queueLateNotification]
      | false => simp [checkIn, checkInWrites, hdup, hl, recordCheckIn]
    | false => simp [checkIn, checkInWrites, hdup, hl, recordCheckIn]

/-- An auxiliary lemma: when the duplicate guard reads nothing, the final
attendance table of checkIn is the upsert of the incoming one. -/
theorem checkIn_attendance (q : Bool) (s : SysState) (userId : EmployeeId)
    (userName : String) (today : Date) (t : Time)
    (h : hasCheckedInToday s userId today = false) :
    (checkIn q s userId userName today t).1.attendance
      = dbUpsertCheckIn s.attendance userId today t := by
  cases hl : isLate t with
  | true =>
    cases q with
    | true =>
      simp [checkIn, checkInWrites, h, hl, recordCheckIn,
        queueLateNotification]
    | false => simp [checkIn, checkInWrites, h, hl, recordCheckIn]
  | false => simp [checkIn, checkInWrites, h, hl, recordCheckIn]

/-- An auxiliary lemma: when the duplicate guard reads nothing and the
queue is up, checkIn reports success. -/
theorem checkIn_success (s : SysState) (userId : EmployeeId)
    (userName : String) (today : Date) (t : Time)
    (h : hasCheckedInToday s userId today = false) :
    (checkIn true s userId userName today t).2
      = CallResult.ok { message := "Checked in successfully",
                        checkInTime := t, isLate := isLate t } := by
  cases hl : isLate t with
  | true => simp [checkIn, checkInWrites, h, hl]
  | false => simp [checkIn, checkInWrites, h, hl]

/-- An auxiliary lemma: after the upsert the table holds a row of the key
carrying the new check-in time. -/
theorem upsert_mem (att : List AttendanceRow) (userId : EmployeeId)
    (d : Date) (t : Time) :
    ∃ r ∈ dbUpsertCheckIn att userId d t,
      r.employee_id = userId ∧ r.date = d ∧ r.check_in_time = some t := by
  unfold dbUpsertCheckIn
  by_cases h : (att.any (fun r => r.employee_id == userId && r.date == d))
      = true
  · rw [if_pos h]
    obtain ⟨r0, hr0, hp⟩ := List.any_eq_true.mp h
    have hfields : r0.employee_id = userId ∧ r0.date = d := by simpa using hp
    refine ⟨{ r0 with check_in_time := some t }, ?_, hfields.1, hfields.2,
      rfl⟩
    have hmem := List.mem_map_of_mem (fun r =>
      if r.employee_id == userId && r.date == d then
        { r with check_in_time := some t }
      else r) hr0
    simpa only [hp, if_true] using hmem
  · rw [if_neg h]
    refine ⟨{ employee_id := userId, date := d, check_in_time := some t,
              check_out_time := none }, ?_, rfl, rfl, rfl⟩
    simp

/-- An auxiliary lemma: an attendance row of an employee that exists in the
employees table and whose date lies in the range produces a report row with
its check-in time. -/
theorem reportQuery_mem (s : SysState) (d1 d2 : Date) (e : Employee)
    (a : AttendanceRow) (he : e ∈ s.employees) (ha : a ∈ s.attendance)
    (hid : a.employee_id = e.id) (h1 : d1 ≤ a.date) (h2 : a.date ≤ d2) :
    ∃ row ∈ reportQuery s d1 d2,
      row.id = e.id ∧ row.date = some a.date ∧
        row.check_in_time = a.check_in_time := by
  have hpa : (a.employee_id == e.id && decide (d1 ≤ a.date) &&
      decide (a.date ≤ d2)) = true := by simp [hid, h1, h2]
  have hmatch : a ∈ s.attendance.filter (fun a =>
      a.employee_id == e.id && decide (d1 ≤ a.date) &&
        decide (a.date ≤ d2)) := List.mem_filter.mpr ⟨ha, hpa⟩
  have hne : (s.attendance.filter (fun a =>
      a.employee_id == e.id && decide (d1 ≤ a.date) &&
        decide (a.date ≤ d2))).isEmpty = false := by
    rw [List.isEmpty_eq_false]
    intro hnil
    rw [hnil] at hmatch
    exact List.not_mem_nil a hmatch
  refine ⟨{ id := e.id, name := e.name, department := e.department,
            date := some a.date, check_in_time := a.check_in_time,
            check_out_time := a.check_out_time }, ?_, rfl, rfl, rfl⟩
  unfold reportQuery
  rw [mem_sortBy, List.mem_flatMap]
  refine ⟨e, he, ?_⟩
  simp only [hne, Bool.false_eq_true, if_false]
  exact List.mem_map_of_mem _ hmatch

/-- An auxiliary lemma: a report call that misses the cache computes and
caches a fresh report. -/
theorem getAttendanceReport_miss (s : SysState) (now : Nat) (d1 d2 : Date)
    (hl : s.reportCache.lookup (d1, d2) = none) :
    getAttendanceReport s now d1 d2 = freshReport s now d1 d2 := by
  unfold getAttendanceReport
  rw [hl]

/-- An auxiliary lemma: a report call that hits a live cache entry returns
it unchanged. -/
theorem getAttendanceReport_hit (s : SysState) (now : Nat) (d1 d2 : Date)
    (rep : Report) (exp : Nat)
    (hl : s.reportCache.lookup (d1, d2) = some (rep, exp))
    (hn : now < exp) :
    getAttendanceReport s now d1 d2 = (s, rep) := by
  unfold getAttendanceReport
  rw [hl]
  simp [hn]

/-- An auxiliary lemma: a report call against an expired cache entry
recomputes a fresh report. -/
theorem getAttendanceReport_expired (s : SysState) (now : Nat)
    (d1 d2 : Date) (rep : Report) (exp : Nat)
    (hl : s.reportCache.lookup (d1, d2) = some (rep, exp))
    (hn : ¬ now < exp) :
    getAttendanceReport s now d1 d2 = freshReport s now d1 d2 := by
  unfold getAttendanceReport
  rw [hl]
  simp [hn]

/-- C8: from a state with no cached report for (d1, d2), a first Report
call at t0 caches its payload for TTL_REPORT seconds; a successful checkIn
then lands in the durable store for an employee and date inside the range;
a second Report call at t2 within the TTL returns the identical stale
payload; a third call at t3 on or after expiry recomputes and its records
contain the new check-in. -/
theorem report_cache_staleness_c8 (s : SysState) (d1 d2 today : Date)
    (userId : EmployeeId) (userName : String) (e : Employee) (tc : Time)
    (t0 t2 t3 : Nat)
    (hcache : s.reportCache.lookup (d1, d2) = none)
    (hdup : hasCheckedInToday s userId today = false)
    (he : e ∈ s.employees) (heid : e.id = userId)
    (hd1 : d1 ≤ today) (hd2 : today ≤ d2)
    (ht2 : t2 < t0 + TTL_REPORT) (ht3 : t0 + TTL_REPORT ≤ t3) :
    ((checkIn true (getAttendanceReport s t0 d1 d2).1 userId userName today
        tc).2
      = CallResult.ok { message := "Checked in successfully",
                        checkInTime := tc, isLate := isLate tc }) ∧
    ((getAttendanceReport
        (checkIn true (getAttendanceReport s t0 d1 d2).1 userId userName
          today tc).1 t2 d1 d2).2
      = (getAttendanceReport s t0 d1 d2).2) ∧
    (∃ row ∈ (getAttendanceReport
        (getAttendanceReport
          (checkIn true (getAttendanceReport s t0 d1 d2).1 userId userName
            today tc).1 t2 d1 d2).1 t3 d1 d2).2.records,
      row.id = userId ∧ row.date = some today ∧
        row.check_in_time = some tc) := by
  have hfresh1 : getAttendanceReport s t0 d1 d2 = freshReport s t0 d1 d2 :=
    getAttendanceReport_miss s t0 d1 d2 hcache
  have hkeep1 := getAttendanceReport_keeps s t0 d1 d2
  have hdup1 : hasCheckedInToday (getAttendanceReport s t0 d1 d2).1 userId
      today = false := by
    unfold hasCheckedInToday at hdup ⊢
    rw [hkeep1.2.2]
    exact hdup
  have hcache1 : (getAttendanceReport s t0 d1 d2).1.reportCache.lookup
      (d1, d2) = some ((getAttendanceReport s t0 d1 d2).2,
        t0 + TTL_REPORT) := by
    rw [hfresh1]
    simp [freshReport, setKey, List.lookup]
  have hkeep2 := checkIn_keeps true (getAttendanceReport s t0 d1 d2).1
    userId userName today tc
  have hatt2 := checkIn_attendance true (getAttendanceReport s t0 d1 d2).1
    userId userName today tc hdup1
  have hlp2 : ((checkIn true (getAttendanceReport s t0 d1 d2).1 userId
      userName today tc).1).reportCache.lookup (d1, d2)
      = some ((getAttendanceReport s t0 d1 d2).2, t0 + TTL_REPORT) := by
    rw [hkeep2.1]
    exact hcache1
  have hcall2 : getAttendanceReport
      (checkIn true (getAttendanceReport s t0 d1 d2).1 userId userName
        today tc).1 t2 d1 d2
      = ((checkIn true (getAttendanceReport s t0 d1 d2).1 userId userName
          today tc).1, (getAttendanceReport s t0 d1 d2).2) :=
    getAttendanceReport_hit _ t2 d1 d2 _ _ hlp2 ht2
  have hnot3 : ¬ t3 < t0 + TTL_REPORT := not_lt.mpr ht3
  refine ⟨checkIn_success (getAttendanceReport s t0 d1 d2).1 userId
    userName today tc hdup1, by rw [hcall2], ?_⟩
  rw [hcall2]
  have hcall3 : getAttendanceReport
      (checkIn true (getAttendanceReport s t0 d1 d2).1 userId userName
        today tc).1 t3 d1 d2
      = freshReport (checkIn true (getAttendanceReport s t0 d1 d2).1
          userId userName today tc).1 t3 d1 d2 :=
    getAttendanceReport_expired _ t3 d1 d2 _ _ hlp2 hnot3
  rw [hcall3]
  obtain ⟨a, hamem, haid, hadate, hatime⟩ :=
    upsert_mem (getAttendanceReport s t0 d1 d2).1.attendance userId today tc
  have hamem2 : a ∈ (checkIn true (getAttendanceReport s t0 d1 d2).1 userId
      userName today tc).1.attendance := by
    rw [hatt2]
    exact hamem
  have he2 : e ∈ (checkIn true (getAttendanceReport s t0 d1 d2).1 userId
      userName today tc).1.employees := by
    rw [hkeep2.2, hkeep1.2.1]
    exact he
  obtain ⟨row, hrow, hrid, hrdate, hrtime⟩ :=
    reportQuery_mem (checkIn true (getAttendanceReport s t0 d1 d2).1 userId
        userName today tc).1 d1 d2 e a he2 hamem2
      (by rw [haid, heid]) (by rw [hadate]; exact hd1)
      (by rw [hadate]; exact hd2)
  exact ⟨row, hrow, by rw [hrid, heid], by rw [hrdate, hadate],
    by rw [hrtime, hatime]⟩


theorem report_cache_staleness_c8_witness :
    ((checkIn true (getAttendanceReport reportState 0 0 10).1 1 "Alice" 5
        32400000).2
      = CallResult.ok { message := "Checked in successfully",
                        checkInTime := 32400000,
                        isLate := isLate 32400000 }) ∧
    ((getAttendanceReport
        (checkIn true (getAttendanceReport reportState 0 0 10).1 1 "Alice"
          5 32400000).1 100 0 10).2
      = (getAttendanceReport reportState 0 0 10).2) ∧
    (∃ row ∈ (getAttendanceReport
        (getAttendanceReport
          (checkIn true (getAttendanceReport reportState 0 0 10).1 1
            "Alice" 5 32400000).1 100 0 10).1 3600 0 10).2.records,
      row.id = 1 ∧ row.date = some 5 ∧ row.check_in_time = some 32400000) :=
  report_cache_staleness_c8 reportState 0 10 5 1 "Alice"
    { id := 1, name := "Alice", department := "Engineering" } 32400000 0
    100 3600 (by decide) (by decide) (by decide) rfl (by decide)
    (by decide) (by decide) (by decide)


end Attendance
